import Mathlib

/-!
Verification development for the jstodolist repository: a shallow embedding of
its authentication subsystem (registration, login, refresh-token rotation,
request authorization) and of the ownership-guarded task operations, together
with theorems settling the behavioural claims about them.

The repository contains two generations of the code base: a current tree
(src/, with hashed refresh tokens) and a legacy tree at the repository root
(plaintext refresh tokens).  Both are embedded below: namespace `Todo.Auth`
follows src/controllers/auth.js of the current tree, namespace `Todo.Legacy`
follows the root controllers/auth.js.
-/

/-! ## SHA-256 (crypto.createHash("sha256"), executable, over ASCII strings) -/

namespace SHA256

def M32 : Nat := 4294967296

def rotr (n x : Nat) : Nat := ((x >>> n) ||| (x <<< (32 - n))) % M32

def bigSigma0 (x : Nat) : Nat := rotr 2 x ^^^ rotr 13 x ^^^ rotr 22 x

def bigSigma1 (x : Nat) : Nat := rotr 6 x ^^^ rotr 11 x ^^^ rotr 25 x

def smallSigma0 (x : Nat) : Nat := rotr 7 x ^^^ rotr 18 x ^^^ (x >>> 3)

def smallSigma1 (x : Nat) : Nat := rotr 17 x ^^^ rotr 19 x ^^^ (x >>> 10)

def ch (x y z : Nat) : Nat := (x &&& y) ^^^ ((x ^^^ 4294967295) &&& z)

def maj (x y z : Nat) : Nat := (x &&& y) ^^^ (x &&& z) ^^^ (y &&& z)

/-- The 64 round constants of FIPS 180-4, written in decimal. -/
def K : List Nat :=
  [1116352408, 1899447441, 3049323471, 3921009573, 961987163, 1508970993,
   2453635748, 2870763221, 3624381080, 310598401, 607225278, 1426881987,
   1925078388, 2162078206, 2614888103, 3248222580, 3835390401, 4022224774,
   264347078, 604807628, 770255983, 1249150122, 1555081692, 1996064986,
   2554220882, 2821834349, 2952996808, 3210313671, 3336571891, 3584528711,
   113926993, 338241895, 666307205, 773529912, 1294757372, 1396182291,
   1695183700, 1986661051, 2177026350, 2456956037, 2730485921, 2820302411,
   3259730800, 3345764771, 3516065817, 3600352804, 4094571909, 275423344,
   430227734, 506948616, 659060556, 883997877, 958139571, 1322822218,
   1537002063, 1747873779, 1955562222, 2024104815, 2227730452, 2361852424,
   2428436474, 2756734187, 3204031479, 3329325298]

/-- The eight initial hash values of FIPS 180-4, written in decimal. -/
def H0 : List Nat :=
  [1779033703, 3144134277, 1013904242, 2773480762,
   1359893119, 2600822924, 528734635, 1541459225]

def lenBytes (bitLen : Nat) : List Nat :=
  [(bitLen >>> 56) &&& 255, (bitLen >>> 48) &&& 255, (bitLen >>> 40) &&& 255, (bitLen >>> 32) &&& 255,
   (bitLen >>> 24) &&& 255, (bitLen >>> 16) &&& 255, (bitLen >>> 8) &&& 255, bitLen &&& 255]

def pad (msg : List Nat) : List Nat :=
  let len := msg.length
  let zeros := (119 - len % 64) % 64
  msg ++ [128] ++ List.replicate zeros 0 ++ lenBytes (8 * len)

def toWords : List Nat → List Nat
  | b0 :: b1 :: b2 :: b3 :: rest =>
    ((((b0 <<< 8) ||| b1) <<< 8 ||| b2) <<< 8 ||| b3) :: toWords rest
  | _ => []

def chunk16 : List Nat → List (List Nat)
  | w0 :: w1 :: w2 :: w3 :: w4 :: w5 :: w6 :: w7 ::
    w8 :: w9 :: w10 :: w11 :: w12 :: w13 :: w14 :: w15 :: rest =>
    [w0, w1, w2, w3, w4, w5, w6, w7, w8, w9, w10, w11, w12, w13, w14, w15] :: chunk16 rest
  | _ => []

def extendSchedule : Nat → List Nat → List Nat
  | 0, acc => acc
  | n + 1, acc =>
    let l := acc.length
    let next := (smallSigma1 (acc.getD (l - 2) 0) + acc.getD (l - 7) 0 +
                 smallSigma0 (acc.getD (l - 15) 0) + acc.getD (l - 16) 0) % M32
    extendSchedule n (acc ++ [next])

def rounds : List (Nat × Nat) → Nat → Nat → Nat → Nat → Nat → Nat → Nat → Nat → List Nat
  | [], a, b, c, d, e, f, g, h => [a, b, c, d, e, f, g, h]
  | (k, w) :: rest, a, b, c, d, e, f, g, h =>
    let t1 := (h + bigSigma1 e + ch e f g + k + w) % M32
    let t2 := (bigSigma0 a + maj a b c) % M32
    rounds rest ((t1 + t2) % M32) a b c ((d + t1) % M32) e f g

def compressBlock (h : List Nat) (block : List Nat) : List Nat :=
  let w := extendSchedule 48 block
  let out := rounds (K.zip w) (h.getD 0 0) (h.getD 1 0) (h.getD 2 0) (h.getD 3 0)
                    (h.getD 4 0) (h.getD 5 0) (h.getD 6 0) (h.getD 7 0)
  (h.zip out).map (fun p => (p.1 + p.2) % M32)

def sha256Words (msg : List Nat) : List Nat :=
  (chunk16 (toWords (pad msg))).foldl compressBlock H0

def hexDigit (n : Nat) : Char :=
  "0123456789abcdef".toList.getD n '0'

def toHex8 (x : Nat) : String :=
  String.mk [hexDigit ((x >>> 28) &&& 15), hexDigit ((x >>> 24) &&& 15),
             hexDigit ((x >>> 20) &&& 15), hexDigit ((x >>> 16) &&& 15),
             hexDigit ((x >>> 12) &&& 15), hexDigit ((x >>> 8) &&& 15),
             hexDigit ((x >>> 4) &&& 15), hexDigit (x &&& 15)]

def strBytes (s : String) : List Nat := s.toList.map Char.toNat

/-- Hex digest of the ASCII bytes of `s`, as crypto.createHash("sha256").update(s).digest("hex"). -/
def sha256Hex (s : String) : String :=
  String.join ((sha256Words (strBytes s)).map toHex8)

end SHA256

namespace Todo

/-! ## Models of the external libraries (bcryptjs, jsonwebtoken, Joi)

These libraries are external collaborators, not code of the repository; they
are modelled by their interfaces.  The model digest `strHash64` is a
deterministic one-way-in-model stand-in used where a library hashes or signs;
the repository code itself never inspects those opaque values, only compares
them, so any deterministic digest is a faithful interface model. -/

def strHash64 (s : String) : Nat :=
  s.toList.foldl (fun a c => (a * 257 + c.toNat) % 18446744073709551616) 7

/-- Model of a bcrypt hash string: per the bcrypt format it packs the salt and
the digest of the salted password into one opaque value. -/
structure BcryptHash where
  salt : Nat
  digest : Nat
deriving DecidableEq

/-- Model of bcryptjs bcrypt.hash(password, salt). -/
def bcryptHash (salt : Nat) (pw : String) : BcryptHash :=
  { salt := salt, digest := strHash64 (Nat.repr salt ++ "$" ++ pw) }

/-- Model of bcryptjs bcrypt.compare(entered, stored). -/
def bcryptCompare (pw : String) (h : BcryptHash) : Bool :=
  strHash64 (Nat.repr h.salt ++ "$" ++ pw) == h.digest

/-- Model of a signed JWT: payload id, expiry claim, and signature. -/
structure JwtToken where
  id : Nat
  exp : Nat
  sig : Nat
deriving DecidableEq

def jwtSigOf (secret : String) (id exp : Nat) : Nat :=
  strHash64 (secret ++ "." ++ Nat.repr id ++ "." ++ Nat.repr exp)

/-- Model of jsonwebtoken jwt.sign(payload, secret, expiresIn). -/
def jwtSign (secret : String) (id exp : Nat) : JwtToken :=
  { id := id, exp := exp, sig := jwtSigOf secret id exp }

inductive JwtVerify
  | fail (errName errMessage : String)
  | ok (id : Nat)
deriving DecidableEq

/-- Model of jsonwebtoken jwt.verify(token, secret): signature is checked
first (JsonWebTokenError on mismatch), then the expiry claim
(TokenExpiredError when it has passed). -/
def jwtVerify (secret : String) (now : Nat) (t : JwtToken) : JwtVerify :=
  if t.sig != jwtSigOf secret t.id t.exp then .fail "JsonWebTokenError" "invalid signature"
  else if t.exp ≤ now then .fail "TokenExpiredError" "jwt expired"
  else .ok t.id

/-- Splitting a character list on a separator, as String.prototype.split with
a single-character separator (structural, so the kernel can evaluate it). -/
def splitOnChar (sep : Char) : List Char → List (List Char)
  | [] => [[]]
  | c :: rest =>
    match splitOnChar sep rest with
    | h :: t => if c == sep then [] :: h :: t else (c :: h) :: t
    | [] => [[c]]

/-- Model of the Joi email syntax check used by Joi.string().email(): one @
between a nonempty local part and a domain of at least two nonempty
dot-separated labels whose final label has at least two characters. -/
def joiEmailOk (s : String) : Bool :=
  match splitOnChar '@' s.toList with
  | [lp, dom] =>
    let parts := splitOnChar '.' dom
    !(lp.isEmpty) && decide (2 ≤ parts.length) && parts.all (fun p => !(p.isEmpty)) &&
      decide (2 ≤ (parts.getLastD []).length)
  | _ => false

/-! ## Errors (src/middleware/error.js) -/

/-- A raised JavaScript error as observed by the error middleware: its
constructor name, message, optional Mongo error code, the statusCode and
errorCode carried by ErrorResponse instances, the sub-messages of a mongoose
ValidationError, and a stack string. -/
structure JsError where
  name : String := "Error"
  message : String
  code : Option Nat := none
  statusCode : Option Nat := none
  errorCode : Option String := none
  errors : List String := []
  stack : String := ""
deriving DecidableEq

/-- The ErrorResponse class: controllers construct it with a message and a
statusCode and never pass an errorCode, which therefore defaults to null. -/
def ErrorResponse (message : String) (statusCode : Nat) : JsError :=
  { name := "Error", message := message, statusCode := some statusCode,
    errorCode := none, stack := "Error: " ++ message }

/-- Successful or failed outcome of a handler, before the error middleware. -/
inductive Resp (α : Type)
  | err (e : JsError)
  | ok (a : α)
deriving DecidableEq

/-- JavaScript comparison error.statusCode >= 500 : false when the field is
undefined (undefined >= 500 evaluates to false). -/
def statusGe500 : Option Nat → Bool
  | some s => 500 ≤ s
  | none => false

/-- The classification chain of errorHandler: each branch tests the original
error and, when it fires, replaces (message, statusCode, errorCode). -/
def errorClassify (err : JsError) : String × Option Nat × Option String :=
  let e0 := (err.message, err.statusCode, err.errorCode)
  let e1 := if err.name == "CastError" then ("Resource not found", some 404, some "RESOURCE_NOT_FOUND") else e0
  let e2 := if err.code == some 11000 then ("Duplicate field value entered", some 400, some "DUPLICATE_VALUE") else e1
  let e3 := if err.name == "ValidationError" then (String.intercalate ", " err.errors, some 400, some "VALIDATION_ERROR") else e2
  let e4 := if err.name == "JsonWebTokenError" then ("Invalid token", some 401, some "INVALID_TOKEN") else e3
  if err.name == "TokenExpiredError" then ("Token expired", some 401, some "TOKEN_EXPIRED") else e4

structure ErrorBody where
  message : String
  code : String
  trace : Option String
deriving DecidableEq

structure HandlerResponse where
  status : Nat
  success : Bool
  error : ErrorBody
deriving DecidableEq

inductive LogLevel
  | error
  | warn
deriving DecidableEq

structure LogEntry where
  level : LogLevel
  message : String
  stack : Option String
  path : String
deriving DecidableEq

/-- errorHandler from src/middleware/error.js: logs (at error level with stack
for statusCode >= 500, else warn without stack), classifies, replaces the
message with "Server Error" when the classified statusCode is >= 500 in
production, defaults the response status to 500 and the code to SERVER_ERROR,
and attaches the stack as trace only outside production. -/
def errorHandler (err : JsError) (isProd : Bool) (path : String) : HandlerResponse × LogEntry :=
  let log : LogEntry :=
    if statusGe500 err.statusCode then
      { level := .error, message := err.name ++ ": " ++ err.message, stack := some err.stack, path := path }
    else
      { level := .warn, message := err.name ++ ": " ++ err.message, stack := none, path := path }
  let c := errorClassify err
  let responseMessage := if statusGe500 c.2.1 && isProd then "Server Error" else c.1
  ({ status := c.2.1.getD 500, success := false,
     error := { message := responseMessage, code := c.2.2.getD "SERVER_ERROR",
                trace := if isProd then none else some err.stack } }, log)

/-! ## Credential store (src/models/User.js) -/

/-- A persisted user document.  The mongoose schema declares name, email,
password and refreshToken; refreshTokenExpire appears here only because the
refresh lookup and logout reference such a field on the document — no write
path in the repository ever assigns it, so it stays absent (none). -/
structure StoredUser where
  id : Nat
  name : String
  email : String
  password : BcryptHash
  refreshToken : Option String := none
  refreshTokenExpire : Option Nat := none
  createdAt : Nat := 0
deriving DecidableEq

def findById (db : List StoredUser) (uid : Nat) : Option StoredUser :=
  db.find? (fun u => u.id == uid)

def findByIdAndUpdate (db : List StoredUser) (uid : Nat) (f : StoredUser → StoredUser) :
    List StoredUser :=
  db.map (fun u => if u.id == uid then f u else u)

def findByEmail (db : List StoredUser) (email : String) : Option StoredUser :=
  db.find? (fun u => u.email == email)

/-- UserSchema.methods.getSignedRefreshToken: given the hex encoding of the
32 random bytes drawn by crypto.randomBytes, sets the sha256 hex digest of the
plaintext on the in-memory document and returns the plaintext. -/
def getSignedRefreshToken (randHex : String) (u : StoredUser) : String × StoredUser :=
  (randHex, { u with refreshToken := some (SHA256.sha256Hex randHex) })

/-- Executable check of the mongoose email validator regex
([\w-\.]+@([\w-]+\.)+[\w-]2,4), anchored and with the whole group optional:
the empty string matches; otherwise one @ splits a nonempty local part of
word, dash or dot characters from a domain of dot-separated nonempty labels
whose final label has 2 to 4 characters. -/
def isWordChar (c : Char) : Bool := c.isAlpha || c.isDigit || c == '_'

def isLocalChar (c : Char) : Bool := isWordChar c || c == '-' || c == '.'

def isLabelChar (c : Char) : Bool := isWordChar c || c == '-'

def mongooseEmailOk (s : String) : Bool :=
  s == "" ||
  (match splitOnChar '@' s.toList with
   | [lp, dom] =>
     let parts := splitOnChar '.' dom
     let lastLabel := parts.getLastD []
     !(lp.isEmpty) && lp.all isLocalChar &&
     decide (2 ≤ parts.length) &&
     parts.dropLast.all (fun p => !(p.isEmpty) && p.all isLabelChar) &&
     lastLabel.all isLabelChar && decide (2 ≤ lastLabel.length) && decide (lastLabel.length ≤ 4)
   | _ => false)

/-! ## Request bodies and Joi validation (models of the Joi schemas) -/

structure RegisterBody where
  name : Option String := none
  email : Option String := none
  password : Option String := none
deriving DecidableEq

structure LoginBody where
  email : Option String := none
  password : Option String := none
deriving DecidableEq

structure RefreshBody where
  refreshToken : Option String := none
deriving DecidableEq

/-- Model of the register Joi schema (name required max 50, email required
valid, password required min 6), abortEarly: the first failing key in schema
order yields the reported message. -/
def joiRegisterError (b : RegisterBody) : Option String :=
  match b.name with
  | none => some "\"name\" is required"
  | some n =>
    if n == "" then some "\"name\" is not allowed to be empty"
    else if 50 < n.length then some "\"name\" length must be less than or equal to 50 characters long"
    else match b.email with
      | none => some "\"email\" is required"
      | some e =>
        if e == "" then some "\"email\" is not allowed to be empty"
        else if !(joiEmailOk e) then some "\"email\" must be a valid email"
        else match b.password with
          | none => some "\"password\" is required"
          | some p =>
            if p == "" then some "\"password\" is not allowed to be empty"
            else if p.length < 6 then some "\"password\" length must be at least 6 characters long"
            else none

/-- Model of the login Joi schema (email required valid, password required). -/
def joiLoginError (b : LoginBody) : Option String :=
  match b.email with
  | none => some "\"email\" is required"
  | some e =>
    if e == "" then some "\"email\" is not allowed to be empty"
    else if !(joiEmailOk e) then some "\"email\" must be a valid email"
    else match b.password with
      | none => some "\"password\" is required"
      | some p =>
        if p == "" then some "\"password\" is not allowed to be empty"
        else none

/-! ## Environment and token responses -/

/-- Per-request ambient inputs: process configuration (secret, expiry) and
the outcomes of the nondeterministic draws (bcrypt.genSalt, the 32 random
bytes of crypto.randomBytes hex-encoded), the clock, and the id the store
assigns to a newly created document. -/
structure Env where
  jwtSecret : String
  jwtExpireSecs : Nat := 3600
  saltValue : Nat := 10
  randHex : String := ""
  now : Nat := 0
  nextId : Nat := 1
deriving DecidableEq

/-- The JSON body sent on successful register, login and refresh: status,
access token, plaintext refresh token, and the public user fields. -/
structure TokenSuccess where
  status : Nat
  token : JwtToken
  refreshToken : String
  userId : Nat
  userName : String
  userEmail : String
deriving DecidableEq

/-- The mongoose validator messages raised by User.create: name maxlength,
the email match regex, password minlength (validation runs on the plaintext
before the hashing pre-save hook). -/
def mongooseUserErrors (name email password : String) : List String :=
  (if 50 < name.length then ["Name cannot be more than 50 characters"] else []) ++
  (if !(mongooseEmailOk email) then ["Please add a valid email"] else []) ++
  (if password.length < 6 then ["Password must be at least 6 characters"] else [])

namespace Auth

/-- sendTokenResponse of src/controllers/auth.js in the current tree: signs
an access token, draws a refresh token via getSignedRefreshToken (which puts
the sha256 digest on the in-memory user), persists that digest with
findByIdAndUpdate (only the refreshToken field is written), and answers with
both tokens and the public user fields.  Cookie transport carries the same
two token values and is not modelled. -/
def sendTokenResponse (env : Env) (user : StoredUser) (statusCode : Nat)
    (db : List StoredUser) : Resp TokenSuccess × List StoredUser :=
  let token := jwtSign env.jwtSecret user.id (env.now + env.jwtExpireSecs)
  let r := getSignedRefreshToken env.randHex user
  let db1 := findByIdAndUpdate db user.id (fun u => { u with refreshToken := r.2.refreshToken })
  (.ok { status := statusCode, token := token, refreshToken := r.1,
         userId := user.id, userName := user.name, userEmail := user.email }, db1)

/-- register: Joi validation, duplicate-email check, User.create (mongoose
validators run on the plaintext, then the pre-save hook bcrypt-hashes the
password), then sendTokenResponse with 201. -/
def register (env : Env) (body : RegisterBody) (db : List StoredUser) :
    Resp TokenSuccess × List StoredUser :=
  match joiRegisterError body with
  | some m => (.err (ErrorResponse m 400), db)
  | none =>
    let name := body.name.getD ""
    let email := body.email.getD ""
    let password := body.password.getD ""
    match findByEmail db email with
    | some _ => (.err (ErrorResponse "User already exists" 400), db)
    | none =>
      let verrs := mongooseUserErrors name email password
      if verrs.isEmpty then
        let user : StoredUser :=
          { id := env.nextId, name := name, email := email,
            password := bcryptHash env.saltValue password,
            refreshToken := none, refreshTokenExpire := none, createdAt := env.now }
        sendTokenResponse env user 201 (db ++ [user])
      else
        (.err { name := "ValidationError", message := "User validation failed",
                errors := verrs, stack := "ValidationError" }, db)

/-- login: Joi validation, lookup by email (with the password field
selected), bcrypt comparison, then sendTokenResponse with 200.  Both failure
causes answer with the same ErrorResponse. -/
def login (env : Env) (body : LoginBody) (db : List StoredUser) :
    Resp TokenSuccess × List StoredUser :=
  match joiLoginError body with
  | some m => (.err (ErrorResponse m 400), db)
  | none =>
    let email := body.email.getD ""
    let password := body.password.getD ""
    match findByEmail db email with
    | none => (.err (ErrorResponse "Invalid credentials" 401), db)
    | some user =>
      if bcryptCompare password user.password then sendTokenResponse env user 200 db
      else (.err (ErrorResponse "Invalid credentials" 401), db)

/-- The Mongo filter of the refresh lookup: refreshToken equals the presented
hash AND refreshTokenExpire is strictly greater than now; a document whose
refreshTokenExpire field is absent never satisfies the $gt condition. -/
def refreshTokenMatches (hashedToken : String) (now : Nat) (u : StoredUser) : Bool :=
  u.refreshToken == some hashedToken &&
  (match u.refreshTokenExpire with
   | some e => decide (now < e)
   | none => false)

/-- refreshToken of src/controllers/auth.js in the current tree: a missing
(or empty, JavaScript-falsy) body token is rejected with 400; otherwise the
presented plaintext is sha256-hashed and a user with that stored hash and a
live expiry is looked up; no match is rejected with 401; a match rotates the
tokens via sendTokenResponse. -/
def refreshToken (env : Env) (body : RefreshBody) (db : List StoredUser) :
    Resp TokenSuccess × List StoredUser :=
  match body.refreshToken with
  | none => (.err (ErrorResponse "No refresh token provided" 400), db)
  | some rt =>
    if rt == "" then (.err (ErrorResponse "No refresh token provided" 400), db)
    else
      let hashedToken := SHA256.sha256Hex rt
      match db.find? (refreshTokenMatches hashedToken env.now) with
      | none => (.err (ErrorResponse "Invalid or expired refresh token" 401), db)
      | some user => sendTokenResponse env user 200 db

/-- logout: clears refreshToken and refreshTokenExpire for the authenticated
user and reports success. -/
def logout (userId : Nat) (db : List StoredUser) : Resp Unit × List StoredUser :=
  (.ok (), findByIdAndUpdate db userId
    (fun u => { u with refreshToken := none, refreshTokenExpire := none }))

end Auth

namespace Legacy

/-- sendTokenResponse of the legacy root controllers/auth.js: it persists the
local refreshToken variable — the PLAINTEXT returned by
getSignedRefreshToken — not the digest the method put on the document. -/
def sendTokenResponse (env : Env) (user : StoredUser) (statusCode : Nat)
    (db : List StoredUser) : Resp TokenSuccess × List StoredUser :=
  let token := jwtSign env.jwtSecret user.id (env.now + env.jwtExpireSecs)
  let r := getSignedRefreshToken env.randHex user
  let db1 := findByIdAndUpdate db user.id (fun u => { u with refreshToken := some r.1 })
  (.ok { status := statusCode, token := token, refreshToken := r.1,
         userId := user.id, userName := user.name, userEmail := user.email }, db1)

/-- refreshToken of the legacy root controllers/auth.js: looks the presented
plaintext up directly against the stored refreshToken field. -/
def refreshToken (env : Env) (body : RefreshBody) (db : List StoredUser) :
    Resp TokenSuccess × List StoredUser :=
  match body.refreshToken with
  | none => (.err (ErrorResponse "No refresh token provided" 400), db)
  | some rt =>
    if rt == "" then (.err (ErrorResponse "No refresh token provided" 400), db)
    else
      match db.find? (fun u => u.refreshToken == some rt) with
      | none => (.err (ErrorResponse "Invalid refresh token" 401), db)
      | some user => sendTokenResponse env user 200 db

end Legacy

/-! ## Session authenticator (src/middleware/auth.js, protect) -/

/-- The Authorization header either uses the Bearer scheme or carries the raw
token value; both are accepted by protect. -/
inductive HeaderAuth
  | bearer (t : JwtToken)
  | raw (t : JwtToken)
deriving DecidableEq

structure AuthRequest where
  cookieToken : Option JwtToken := none
  headerAuthorization : Option HeaderAuth := none
deriving DecidableEq

/-- Credential extraction of protect in the current tree: the token cookie is
preferred; only when it is absent is the Authorization header consulted. -/
def extractToken (req : AuthRequest) : Option JwtToken :=
  match req.cookieToken with
  | some t => some t
  | none =>
    match req.headerAuthorization with
    | some (.bearer t) => some t
    | some (.raw t) => some t
    | none => none

/-- protect: no credential is rejected 401 without logging; a failed
jwt.verify is caught, logged internally as Auth error with the library
message, and rejected with the same 401 ErrorResponse regardless of the
cause; a verified id that resolves to no user is rejected 401; otherwise the
user is attached to the request.  The first component is the logger.error
line emitted, if any. -/
def protect (secret : String) (now : Nat) (db : List StoredUser) (req : AuthRequest) :
    Option String × Resp StoredUser :=
  match extractToken req with
  | none => (none, .err (ErrorResponse "Not authorized to access this route" 401))
  | some tok =>
    match jwtVerify secret now tok with
    | .fail _ m => (some ("Auth error: " ++ m),
                    .err (ErrorResponse "Not authorized to access this route" 401))
    | .ok uid =>
      match findById db uid with
      | none => (none, .err (ErrorResponse "User not found" 401))
      | some u => (none, .ok u)

/-! ## Tasks (src/models/Task.js fields, src/controllers/tasks.js) -/

namespace Tasks

inductive Priority
  | low
  | medium
  | high
deriving DecidableEq

def priorityOfString (s : String) : Option Priority :=
  if s == "low" then some .low
  else if s == "medium" then some .medium
  else if s == "high" then some .high
  else none

structure Task where
  id : Nat
  user : Nat
  title : String
  description : Option String := none
  completed : Bool := false
  dueDate : Option Nat := none
  priority : Option Priority := none
  createdAt : Nat := 0
  updatedAt : Nat := 0
deriving DecidableEq

/-- The update request body: every field of the update Joi schema is
optional. -/
structure TaskUpdateBody where
  title : Option String := none
  description : Option String := none
  completed : Option Bool := none
  dueDate : Option Nat := none
  priority : Option String := none
deriving DecidableEq

def joiTaskUpdatePriorityError (b : TaskUpdateBody) : Option String :=
  match b.priority with
  | some p =>
    if (priorityOfString p).isNone then some "\"priority\" must be one of [low, medium, high]"
    else none
  | none => none

def joiTaskUpdateErrorRest (b : TaskUpdateBody) : Option String :=
  match b.description with
  | some d =>
    if d == "" then some "\"description\" is not allowed to be empty"
    else if 500 < d.length then some "\"description\" length must be less than or equal to 500 characters long"
    else joiTaskUpdatePriorityError b
  | none => joiTaskUpdatePriorityError b

/-- Model of the update Joi schema (title max 100, description max 500,
completed boolean, dueDate date, priority one of low, medium, high),
abortEarly in schema key order. -/
def joiTaskUpdateError (b : TaskUpdateBody) : Option String :=
  match b.title with
  | some t =>
    if t == "" then some "\"title\" is not allowed to be empty"
    else if 100 < t.length then some "\"title\" length must be less than or equal to 100 characters long"
    else joiTaskUpdateErrorRest b
  | none => joiTaskUpdateErrorRest b

/-- The effect of findByIdAndUpdate with the sanitized body: provided fields
overwrite the stored ones, updatedAt is always set to now. -/
def applyUpdate (t : Task) (b : TaskUpdateBody) (now : Nat) : Task :=
  { t with
    title := b.title.getD t.title,
    description := match b.description with | some d => some d | none => t.description,
    completed := b.completed.getD t.completed,
    dueDate := match b.dueDate with | some d => some d | none => t.dueDate,
    priority := match b.priority with | some p => priorityOfString p | none => t.priority,
    updatedAt := now }

/-- getTask: load by id; absence answers 404 before any ownership
consideration; an owner mismatch answers 403; otherwise the task. -/
def getTask (taskId requesterId : Nat) (tasks : List Task) : Resp Task :=
  match tasks.find? (fun t => t.id == taskId) with
  | none => .err (ErrorResponse "Task not found" 404)
  | some task =>
    if task.user != requesterId then .err (ErrorResponse "Not authorized to access this task" 403)
    else .ok task

/-- updateTask: Joi validation first, then load by id (404 when absent),
then the ownership check (403 on mismatch), then the conditional update. -/
def updateTask (body : TaskUpdateBody) (taskId requesterId now : Nat) (tasks : List Task) :
    Resp Task × List Task :=
  match joiTaskUpdateError body with
  | some m => (.err (ErrorResponse m 400), tasks)
  | none =>
    match tasks.find? (fun t => t.id == taskId) with
    | none => (.err (ErrorResponse "Task not found" 404), tasks)
    | some task =>
      if task.user != requesterId then
        (.err (ErrorResponse "Not authorized to update this task" 403), tasks)
      else
        (.ok (applyUpdate task body now),
         tasks.map (fun t => if t.id == taskId then applyUpdate t body now else t))

/-- deleteTask: load by id (404 when absent), ownership check (403 on
mismatch), then deleteOne. -/
def deleteTask (taskId requesterId : Nat) (tasks : List Task) : Resp Unit × List Task :=
  match tasks.find? (fun t => t.id == taskId) with
  | none => (.err (ErrorResponse "Task not found" 404), tasks)
  | some task =>
    if task.user != requesterId then
      (.err (ErrorResponse "Not authorized to delete this task" 403), tasks)
    else
      (.ok (), tasks.filter (fun t => !(t.id == taskId)))

end Tasks

/-! ## Shared lemmas -/

/-- The embedding computes real SHA-256: the FIPS 180-4 test vector. -/
lemma sha256Hex_abc :
    SHA256.sha256Hex "abc" =
      "ba7816bf8f01cfea414140de5dae2223b00361a396177a9cb410ff61f20015ad" := by
  decide

lemma bcryptCompare_bcryptHash (salt : Nat) (pw : String) :
    bcryptCompare pw (bcryptHash salt pw) = true := by
  simp [bcryptCompare, bcryptHash]

/-! ## Claims C4 and C1: the refresh lookup -/

/-- Claim C4: the refresh operation rejects a request with no token in the
body (or the JavaScript-falsy empty string) with status 400; otherwise it
hashes the presented token with the same sha256 digest used at issuance
(getSignedRefreshToken stores exactly the digest of the plaintext it
returns), and fails with the 401 Invalid or expired refresh token error when
no stored user matches — where matching means the stored hash equals the
presented hash and the expiry is strictly in the future; every failure
leaves the user store unchanged. -/
theorem c4_refresh_failure_semantics (env : Env) (db : List StoredUser) :
    (Auth.refreshToken env {} db =
      (.err (ErrorResponse "No refresh token provided" 400), db)) ∧
    (Auth.refreshToken env { refreshToken := some "" } db =
      (.err (ErrorResponse "No refresh token provided" 400), db)) ∧
    (∀ randHex u, (getSignedRefreshToken randHex u).2.refreshToken =
      some (SHA256.sha256Hex (getSignedRefreshToken randHex u).1)) ∧
    (∀ h now u, Auth.refreshTokenMatches h now u = true ↔
      (u.refreshToken = some h ∧ ∃ e, u.refreshTokenExpire = some e ∧ now < e)) ∧
    (∀ rt, rt ≠ "" →
      (∀ u ∈ db, Auth.refreshTokenMatches (SHA256.sha256Hex rt) env.now u = false) →
      Auth.refreshToken env { refreshToken := some rt } db =
        (.err (ErrorResponse "Invalid or expired refresh token" 401), db)) := by
  refine ⟨by simp [Auth.refreshToken], by simp [Auth.refreshToken], by
    intro randHex u; simp [getSignedRefreshToken], ?_, ?_⟩
  · intro h now u
    cases hx : u.refreshTokenExpire with
    | none => simp [Auth.refreshTokenMatches, hx]
    | some e => simp [Auth.refreshTokenMatches, hx]
  · intro rt hrt hall
    have hne : (rt == "") = false := beq_eq_false_iff_ne.mpr hrt
    have hfind : db.find? (Auth.refreshTokenMatches (SHA256.sha256Hex rt) env.now) = none :=
      List.find?_eq_none.mpr (fun u hu => by simp [hall u hu])
    simp [Auth.refreshToken, hne, hfind]

def c4Env : Env := { jwtSecret := "s", now := 10 }

/-- A store for the C4 witness: Ann has no stored refresh hash; Bob stores
the hash of tok but its expiry (5) is already past now (10). -/
def c4Db : List StoredUser :=
  [{ id := 1, name := "Ann", email := "ann@x.com", password := bcryptHash 10 "secret1" },
   { id := 2, name := "Bob", email := "bob@x.com", password := bcryptHash 10 "secret2",
     refreshToken := some (SHA256.sha256Hex "tok"), refreshTokenExpire := some 5 }]

/-- Witness for C4: a bodyless refresh is rejected 400; presenting tok,
whose hash Bob stores but with a past expiry, is rejected 401 with the store
unchanged. -/
theorem c4_witness :
    Auth.refreshToken c4Env {} c4Db =
      (.err (ErrorResponse "No refresh token provided" 400), c4Db) ∧
    Auth.refreshToken c4Env { refreshToken := some "tok" } c4Db =
      (.err (ErrorResponse "Invalid or expired refresh token" 401), c4Db) :=
  ⟨(c4_refresh_failure_semantics c4Env c4Db).1,
   (c4_refresh_failure_semantics c4Env c4Db).2.2.2.2 "tok" (by decide) (by decide)⟩

/-- The invariant the repository actually maintains: no write path ever
assigns refreshTokenExpire (User.create leaves it absent, sendTokenResponse
persists only refreshToken, logout nulls it), so it is unset on every
stored user. -/
def allRefreshExpireUnset (db : List StoredUser) : Prop :=
  ∀ u ∈ db, u.refreshTokenExpire = none

lemma refreshTokenMatches_eq_false_of_expire_unset (h : String) (now : Nat) (u : StoredUser)
    (hu : u.refreshTokenExpire = none) : Auth.refreshTokenMatches h now u = false := by
  simp [Auth.refreshTokenMatches, hu]

lemma refresh_always_fails_of_expire_unset (env : Env) (db : List StoredUser) (rt : String)
    (hdb : allRefreshExpireUnset db) (hrt : rt ≠ "") :
    Auth.refreshToken env { refreshToken := some rt } db =
      (.err (ErrorResponse "Invalid or expired refresh token" 401), db) := by
  have hne : (rt == "") = false := beq_eq_false_iff_ne.mpr hrt
  have hfind : db.find? (Auth.refreshTokenMatches (SHA256.sha256Hex rt) env.now) = none :=
    List.find?_eq_none.mpr (fun u hu => by
      simp [refreshTokenMatches_eq_false_of_expire_unset _ _ _ (hdb u hu)])
  simp [Auth.refreshToken, hne, hfind]

lemma sendTokenResponse_preserves_expire_unset (env : Env) (u0 : StoredUser) (st : Nat)
    (db : List StoredUser) (hdb : allRefreshExpireUnset db) :
    allRefreshExpireUnset (Auth.sendTokenResponse env u0 st db).2 := by
  intro v hv
  simp only [Auth.sendTokenResponse, findByIdAndUpdate] at hv
  rcases List.mem_map.mp hv with ⟨w, hw, rfl⟩
  split
  · simpa using hdb w hw
  · exact hdb w hw

lemma register_preserves_expire_unset (env : Env) (body : RegisterBody) (db : List StoredUser)
    (hdb : allRefreshExpireUnset db) : allRefreshExpireUnset (Auth.register env body db).2 := by
  unfold Auth.register
  split
  · exact hdb
  · dsimp only
    split
    · exact hdb
    · split
      · apply sendTokenResponse_preserves_expire_unset
        intro u hu
        rcases List.mem_append.mp hu with hmem | hmem
        · exact hdb u hmem
        · have heq : u = _ := List.mem_singleton.mp hmem
          subst heq
          rfl
      · exact hdb

/-- Claim C1 (divergence witness): the claim says a freshly issued refresh
token can be exchanged exactly once.  In the code, however, the refresh
lookup requires refreshTokenExpire to be strictly greater than now while no
write path ever assigns that field (the schema does not even declare it), so
on any store satisfying that invariant — including the store right after a
successful register — EVERY refresh call, in particular the very first one
with the just-issued plaintext, fails with the 401 Invalid or expired
refresh token error. -/
theorem c1_first_refresh_fails (env env2 : Env) (body : RegisterBody)
    (db : List StoredUser) (out : TokenSuccess) (db1 : List StoredUser)
    (hdb : allRefreshExpireUnset db)
    (hreg : Auth.register env body db = (.ok out, db1))
    (rt : String) (hrt : rt ≠ "") :
    Auth.refreshToken env2 { refreshToken := some rt } db1 =
      (.err (ErrorResponse "Invalid or expired refresh token" 401), db1) := by
  have hpres := register_preserves_expire_unset env body db hdb
  rw [hreg] at hpres
  exact refresh_always_fails_of_expire_unset env2 db1 rt hpres hrt

def c1Rand : String :=
  "0123456789abcdef0123456789abcdef0123456789abcdef0123456789abcdef"

def c1Env : Env :=
  { jwtSecret := "s", jwtExpireSecs := 3600, saltValue := 10,
    randHex := c1Rand, now := 1000, nextId := 1 }

def c1Body : RegisterBody :=
  { name := some "Ann", email := some "ann@x.com", password := some "secret1" }

def c1Out : TokenSuccess :=
  { status := 201, token := jwtSign "s" 1 4600, refreshToken := c1Rand,
    userId := 1, userName := "Ann", userEmail := "ann@x.com" }

/-- The store right after Ann registers: her record holds the sha256 digest
of the issued plaintext and no refreshTokenExpire. -/
def c1Db1 : List StoredUser :=
  [{ id := 1, name := "Ann", email := "ann@x.com", password := bcryptHash 10 "secret1",
     refreshToken := some (SHA256.sha256Hex c1Rand), refreshTokenExpire := none,
     createdAt := 1000 }]

/-- Witness for C1: Ann registers on an empty store and immediately presents
the refresh token the register response returned; the call fails 401. -/
theorem c1_witness :
    Auth.refreshToken { jwtSecret := "s", now := 2000 } { refreshToken := some c1Rand } c1Db1 =
      (.err (ErrorResponse "Invalid or expired refresh token" 401), c1Db1) :=
  c1_first_refresh_fails c1Env { jwtSecret := "s", now := 2000 } c1Body [] c1Out c1Db1
    (by intro u hu; exact absurd hu (List.not_mem_nil u))
    (by rfl) c1Rand (by decide)

/-! ## Claim C2 -/

/-- Claim C2: for every operation targeting a specific task (single read,
update, delete) by an authenticated user: a missing id answers NotFound 404
regardless of the requester (existence is checked before ownership); an
existing task whose user field differs from the requester answers Forbidden
403, never NotFound; the operation proceeds only for the owner.  For update
the request body must pass validation, which runs before the lookup. -/
theorem c2_task_ops_existence_then_ownership
    (taskId requesterId now : Nat) (tasks : List Tasks.Task) (body : Tasks.TaskUpdateBody)
    (hbody : Tasks.joiTaskUpdateError body = none) :
    (tasks.find? (fun t => t.id == taskId) = none →
      Tasks.getTask taskId requesterId tasks = .err (ErrorResponse "Task not found" 404) ∧
      Tasks.updateTask body taskId requesterId now tasks =
        (.err (ErrorResponse "Task not found" 404), tasks) ∧
      Tasks.deleteTask taskId requesterId tasks =
        (.err (ErrorResponse "Task not found" 404), tasks)) ∧
    (∀ task, tasks.find? (fun t => t.id == taskId) = some task → task.user ≠ requesterId →
      Tasks.getTask taskId requesterId tasks =
        .err (ErrorResponse "Not authorized to access this task" 403) ∧
      Tasks.updateTask body taskId requesterId now tasks =
        (.err (ErrorResponse "Not authorized to update this task" 403), tasks) ∧
      Tasks.deleteTask taskId requesterId tasks =
        (.err (ErrorResponse "Not authorized to delete this task" 403), tasks)) ∧
    (∀ task, tasks.find? (fun t => t.id == taskId) = some task → task.user = requesterId →
      Tasks.getTask taskId requesterId tasks = .ok task ∧
      Tasks.updateTask body taskId requesterId now tasks =
        (.ok (Tasks.applyUpdate task body now),
         tasks.map (fun t => if t.id == taskId then Tasks.applyUpdate t body now else t)) ∧
      Tasks.deleteTask taskId requesterId tasks =
        (.ok (), tasks.filter (fun t => !(t.id == taskId)))) := by
  refine ⟨?_, ?_, ?_⟩
  · intro h
    simp [Tasks.getTask, Tasks.updateTask, Tasks.deleteTask, hbody, h]
  · intro task hfind hne
    have hb : (task.user != requesterId) = true := by simp [hne]
    simp [Tasks.getTask, Tasks.updateTask, Tasks.deleteTask, hbody, hfind, hb]
  · intro task hfind heq
    have hb : (task.user != requesterId) = false := by simp [heq]
    simp [Tasks.getTask, Tasks.updateTask, Tasks.deleteTask, hbody, hfind, hb]

/-- A concrete task list for the C2 witness. -/
def c2Tasks : List Tasks.Task := [{ id := 1, user := 10, title := "Buy milk" }]

def c2Body : Tasks.TaskUpdateBody := { title := some "Buy oat milk" }

/-- Witness for C2: on a store holding task 1 owned by user 10 — a request
for the missing task 2 gets 404 for the owner, an existing-task request by
user 20 gets 403 on all three operations, and the owner reads, updates and
deletes successfully. -/
theorem c2_witness :
    (Tasks.getTask 2 10 c2Tasks = .err (ErrorResponse "Task not found" 404)) ∧
    (Tasks.getTask 1 20 c2Tasks = .err (ErrorResponse "Not authorized to access this task" 403)) ∧
    (Tasks.updateTask c2Body 1 20 5 c2Tasks =
      (.err (ErrorResponse "Not authorized to update this task" 403), c2Tasks)) ∧
    (Tasks.deleteTask 1 20 c2Tasks =
      (.err (ErrorResponse "Not authorized to delete this task" 403), c2Tasks)) ∧
    (Tasks.getTask 1 10 c2Tasks = .ok { id := 1, user := 10, title := "Buy milk" }) ∧
    (Tasks.deleteTask 1 10 c2Tasks = (.ok (), [])) := by
  have hmiss := c2_task_ops_existence_then_ownership 2 10 5 c2Tasks c2Body (by rfl)
  have hother := c2_task_ops_existence_then_ownership 1 20 5 c2Tasks c2Body (by rfl)
  have howner := c2_task_ops_existence_then_ownership 1 10 5 c2Tasks c2Body (by rfl)
  refine ⟨(hmiss.1 (by rfl)).1,
          (hother.2.1 _ (by rfl) (by decide)).1,
          (hother.2.1 _ (by rfl) (by decide)).2.1,
          (hother.2.1 _ (by rfl) (by decide)).2.2,
          (howner.2.2 _ (by rfl) (by decide)).1, ?_⟩
  have h := (howner.2.2 { id := 1, user := 10, title := "Buy milk" } (by rfl) (by decide)).2.2
  simpa using h

/-! ## Claim C3 -/

/-- Claim C3: for every well-formed login request, the two failure causes —
email not registered, and email registered but password wrong — produce the
identical ErrorResponse with status 401 and message Invalid credentials, and
hence identical client envelopes; a client cannot distinguish them. -/
theorem c3_login_failures_indistinguishable (env : Env) (db : List StoredUser)
    (email pw : String) (hval : joiLoginError { email := some email, password := some pw } = none) :
    (findByEmail db email = none →
      Auth.login env { email := some email, password := some pw } db =
        (.err (ErrorResponse "Invalid credentials" 401), db)) ∧
    (∀ u, findByEmail db email = some u → bcryptCompare pw u.password = false →
      Auth.login env { email := some email, password := some pw } db =
        (.err (ErrorResponse "Invalid credentials" 401), db)) := by
  constructor
  · intro h
    simp [Auth.login, hval, h]
  · intro u hu hpw
    simp [Auth.login, hval, hu, hpw]

/-- A concrete store for the C3 witness: one user registered with email
ann@x.com and password secret1. -/
def c3Db : List StoredUser :=
  [{ id := 1, name := "Ann", email := "ann@x.com", password := bcryptHash 10 "secret1" }]

/-- Witness for C3: a login for the unregistered bob@x.com and a login for
ann@x.com with the wrong password produce the same 401 Invalid credentials
response. -/
theorem c3_witness :
    Auth.login { jwtSecret := "s" } { email := some "bob@x.com", password := some "secret1" } c3Db =
      (.err (ErrorResponse "Invalid credentials" 401), c3Db) ∧
    Auth.login { jwtSecret := "s" } { email := some "ann@x.com", password := some "wrongpw" } c3Db =
      (.err (ErrorResponse "Invalid credentials" 401), c3Db) := by
  refine ⟨(c3_login_failures_indistinguishable { jwtSecret := "s" } c3Db "bob@x.com" "secret1"
            (by rfl)).1 (by rfl),
          (c3_login_failures_indistinguishable { jwtSecret := "s" } c3Db "ann@x.com" "wrongpw"
            (by rfl)).2 _ (by rfl) (by decide)⟩

/-! ## Claim C6 -/

lemma joiRegisterError_none_facts (name email pw : String)
    (h : joiRegisterError { name := some name, email := some email, password := some pw } = none) :
    (name == "") = false ∧ ¬ 50 < name.length ∧ (email == "") = false ∧
    joiEmailOk email = true ∧ (pw == "") = false ∧ ¬ pw.length < 6 := by
  simp only [joiRegisterError] at h
  split at h
  case isTrue => simp at h
  case isFalse h1 =>
    split at h
    case isTrue => simp at h
    case isFalse h2 =>
      split at h
      case isTrue => simp at h
      case isFalse h3 =>
        split at h
        case isTrue => simp at h
        case isFalse h4 =>
          split at h
          case isTrue => simp at h
          case isFalse h5 =>
            split at h
            case isTrue => simp at h
            case isFalse h6 =>
              simp only [Bool.not_eq_true] at h1 h3 h5
              have h4' : joiEmailOk email = true := by
                cases hb : joiEmailOk email
                · exact absurd (by simp [hb]) h4
                · rfl
              exact ⟨h1, h2, h3, h4', h5, h6⟩

/-- Claim C6: for every triple passing validation (nonempty name of at most
50 characters, an email accepted by both the Joi check and the mongoose
schema regex, a password of at least 6 characters) whose email is not yet
registered, register succeeds with status 201 and a subsequent login with
the same email and password succeeds with status 200 (the stored bcrypt
hash verifies the original plaintext). -/
theorem c6_register_then_login (env env2 : Env) (db : List StoredUser) (name email pw : String)
    (hjoi : joiRegisterError { name := some name, email := some email, password := some pw } = none)
    (hmg : mongooseEmailOk email = true)
    (hnew : findByEmail db email = none) :
    ∃ out db1, Auth.register env { name := some name, email := some email, password := some pw } db
        = (.ok out, db1) ∧ out.status = 201 ∧
      ∃ out2 db2, Auth.login env2 { email := some email, password := some pw } db1
        = (.ok out2, db2) ∧ out2.status = 200 := by
  obtain ⟨hname_ne, hname_len, hemail_ne, hjoiEmail, hpw_ne, hpw_len⟩ :=
    joiRegisterError_none_facts name email pw hjoi
  have hverrs : mongooseUserErrors name email pw = [] := by
    simp [mongooseUserErrors, hname_len, hmg, hpw_len]
  -- the created user and its record after the refresh hash was persisted
  have huser1 :
      findByIdAndUpdate
        (db ++ [{ id := env.nextId, name := name, email := email,
                  password := bcryptHash env.saltValue pw, refreshToken := none,
                  refreshTokenExpire := none, createdAt := env.now }]) env.nextId
        (fun u => { u with refreshToken := some (SHA256.sha256Hex env.randHex) }) =
      (db.map (fun u => if u.id == env.nextId
          then { u with refreshToken := some (SHA256.sha256Hex env.randHex) } else u)) ++
        [{ id := env.nextId, name := name, email := email,
           password := bcryptHash env.saltValue pw,
           refreshToken := some (SHA256.sha256Hex env.randHex),
           refreshTokenExpire := none, createdAt := env.now }] := by
    simp [findByIdAndUpdate]
  have hreg : Auth.register env { name := some name, email := some email, password := some pw } db
      = (.ok { status := 201,
               token := jwtSign env.jwtSecret env.nextId (env.now + env.jwtExpireSecs),
               refreshToken := env.randHex, userId := env.nextId,
               userName := name, userEmail := email },
         (db.map (fun u => if u.id == env.nextId
             then { u with refreshToken := some (SHA256.sha256Hex env.randHex) } else u)) ++
           [{ id := env.nextId, name := name, email := email,
              password := bcryptHash env.saltValue pw,
              refreshToken := some (SHA256.sha256Hex env.randHex),
              refreshTokenExpire := none, createdAt := env.now }]) := by
    simp only [Auth.register, hjoi, Option.getD_some, hnew, hverrs, List.isEmpty_nil,
      if_true, Auth.sendTokenResponse, getSignedRefreshToken]
    rw [huser1]
  refine ⟨_, _, hreg, rfl, ?_⟩
  -- login on the post-register store
  have hjoiL : joiLoginError { email := some email, password := some pw } = none := by
    simp [joiLoginError, hemail_ne, hjoiEmail, hpw_ne]
  have hfind1 : findByEmail
      ((db.map (fun u => if u.id == env.nextId
          then { u with refreshToken := some (SHA256.sha256Hex env.randHex) } else u)) ++
        [{ id := env.nextId, name := name, email := email,
           password := bcryptHash env.saltValue pw,
           refreshToken := some (SHA256.sha256Hex env.randHex),
           refreshTokenExpire := none, createdAt := env.now }]) email =
      some { id := env.nextId, name := name, email := email,
             password := bcryptHash env.saltValue pw,
             refreshToken := some (SHA256.sha256Hex env.randHex),
             refreshTokenExpire := none, createdAt := env.now } := by
    have hnone : (db.map (fun u => if u.id == env.nextId
        then { u with refreshToken := some (SHA256.sha256Hex env.randHex) } else u)).find?
        (fun u => u.email == email) = none := by
      refine List.find?_eq_none.mpr (fun v hv => ?_)
      rcases List.mem_map.mp hv with ⟨w, hw, rfl⟩
      have hwe : ¬ (w.email == email) = true := List.find?_eq_none.mp hnew w hw
      split
      · simpa using hwe
      · simpa using hwe
    unfold findByEmail
    rw [List.find?_append, hnone, Option.none_or, List.find?_cons]
    simp
  have hlogin : Auth.login env2 { email := some email, password := some pw }
      ((db.map (fun u => if u.id == env.nextId
          then { u with refreshToken := some (SHA256.sha256Hex env.randHex) } else u)) ++
        [{ id := env.nextId, name := name, email := email,
           password := bcryptHash env.saltValue pw,
           refreshToken := some (SHA256.sha256Hex env.randHex),
           refreshTokenExpire := none, createdAt := env.now }]) =
      Auth.sendTokenResponse env2
        { id := env.nextId, name := name, email := email,
          password := bcryptHash env.saltValue pw,
          refreshToken := some (SHA256.sha256Hex env.randHex),
          refreshTokenExpire := none, createdAt := env.now } 200
        ((db.map (fun u => if u.id == env.nextId
            then { u with refreshToken := some (SHA256.sha256Hex env.randHex) } else u)) ++
          [{ id := env.nextId, name := name, email := email,
             password := bcryptHash env.saltValue pw,
             refreshToken := some (SHA256.sha256Hex env.randHex),
             refreshTokenExpire := none, createdAt := env.now }]) := by
    simp only [Auth.login, hjoiL, Option.getD_some, hfind1, bcryptCompare_bcryptHash, if_true]
  exact ⟨_, _, hlogin.trans rfl, rfl⟩

def c6Env1 : Env := { jwtSecret := "s", randHex := "r1", now := 100, nextId := 1 }

def c6Env2 : Env := { jwtSecret := "s", randHex := "r2", now := 200, nextId := 2 }

/-- Witness for C6: Ann registers with a valid triple on the empty store and
then logs in with the same credentials. -/
theorem c6_witness :
    ∃ out db1, Auth.register c6Env1
        { name := some "Ann", email := some "ann@x.com", password := some "secret1" } []
        = (.ok out, db1) ∧ out.status = 201 ∧
      ∃ out2 db2, Auth.login c6Env2
        { email := some "ann@x.com", password := some "secret1" } db1
        = (.ok out2, db2) ∧ out2.status = 200 :=
  c6_register_then_login c6Env1 c6Env2 [] "Ann" "ann@x.com" "secret1"
    (by decide) (by decide) (by rfl)

/-! ## Claim C10 -/

/-- Claim C10: a login request whose email field is present but fails the
email syntax check is rejected with the 400 validation message, and the
uniform 401 Invalid credentials path is never reached. -/
theorem c10_login_invalid_email_rejected_before_credentials (env : Env)
    (db : List StoredUser) (email : String) (pw : Option String)
    (hbad : joiEmailOk email = false) :
    (∃ m, joiLoginError { email := some email, password := pw } = some m ∧
      Auth.login env { email := some email, password := pw } db =
        (.err (ErrorResponse m 400), db)) ∧
    (Auth.login env { email := some email, password := pw } db).1 ≠
      .err (ErrorResponse "Invalid credentials" 401) := by
  have hme : joiLoginError { email := some email, password := pw } =
      some (if email == "" then "\"email\" is not allowed to be empty"
            else "\"email\" must be a valid email") := by
    by_cases h0 : email == ""
    · simp [joiLoginError, h0]
    · simp [joiLoginError, h0, hbad]
  refine ⟨⟨_, hme, by simp [Auth.login, hme]⟩, ?_⟩
  have hlogin : Auth.login env { email := some email, password := pw } db =
      (.err (ErrorResponse (if email == "" then "\"email\" is not allowed to be empty"
        else "\"email\" must be a valid email") 400), db) := by
    simp [Auth.login, hme]
  rw [hlogin]
  intro hcontra
  have := congrArg (fun e => match e with | .err j => j.statusCode | .ok _ => none) hcontra
  simp [ErrorResponse] at this

/-- Witness for C10: the present but malformed email not-an-email is
rejected with the Joi message and status 400, not with 401. -/
theorem c10_witness :
    Auth.login { jwtSecret := "s" } { email := some "not-an-email", password := some "secret1" } c3Db =
      (.err (ErrorResponse "\"email\" must be a valid email" 400), c3Db) := by
  obtain ⟨m, hm, hl⟩ := (c10_login_invalid_email_rejected_before_credentials { jwtSecret := "s" }
    c3Db "not-an-email" (some "secret1") (by decide)).1
  have hme : joiLoginError { email := some "not-an-email", password := some "secret1" } =
      some "\"email\" must be a valid email" := by decide
  have hmm : m = "\"email\" must be a valid email" :=
    (Option.some.inj (hm.symm.trans hme))
  rw [hmm] at hl
  exact hl

/-! ## Claim C7 -/

/-- Claim C7 (counterexample): the login failure — an ErrorResponse with
statusCode 401 and no errorCode — matches none of the classification
conditions, and is surfaced with code SERVER_ERROR but HTTP status 401, not
500 as the claim states for unclassified failures. -/
theorem c7_counterexample :
    (errorHandler (ErrorResponse "Invalid credentials" 401) true "/api/auth/login").1 =
      { status := 401, success := false,
        error := { message := "Invalid credentials", code := "SERVER_ERROR", trace := none } } ∧
    (ErrorResponse "Invalid credentials" 401).name = "Error" ∧
    (ErrorResponse "Invalid credentials" 401).code = none ∧
    (401 : Nat) ≠ 500 := by
  refine ⟨by decide, by decide, by decide, by decide⟩

/-- Claim C7 (amended): every failure is surfaced as the uniform envelope
with success false and a message, code and optional trace; the
classification rows hold as stated (malformed id 404 RESOURCE_NOT_FOUND,
duplicate 400 DUPLICATE_VALUE, validation 400 VALIDATION_ERROR, invalid
signature 401 INVALID_TOKEN, expired 401 TOKEN_EXPIRED); a failure matching
none of the conditions is surfaced with code SERVER_ERROR when it carries no
errorCode of its own, and with HTTP status equal to the statusCode it
carries, defaulting to 500 only when it carries none. -/
theorem c7_error_classification (err : JsError) (isProd : Bool) (path : String) :
    ((errorHandler err isProd path).1.success = false) ∧
    (err.name = "CastError" → err.code ≠ some 11000 →
      (errorHandler err isProd path).1.status = 404 ∧
      (errorHandler err isProd path).1.error.code = "RESOURCE_NOT_FOUND") ∧
    (err.code = some 11000 → err.name ≠ "ValidationError" →
      err.name ≠ "JsonWebTokenError" → err.name ≠ "TokenExpiredError" →
      (errorHandler err isProd path).1.status = 400 ∧
      (errorHandler err isProd path).1.error.code = "DUPLICATE_VALUE") ∧
    (err.name = "ValidationError" → err.name ≠ "JsonWebTokenError" →
      err.name ≠ "TokenExpiredError" →
      (errorHandler err isProd path).1.status = 400 ∧
      (errorHandler err isProd path).1.error.code = "VALIDATION_ERROR") ∧
    (err.name = "JsonWebTokenError" →
      (errorHandler err isProd path).1.status = 401 ∧
      (errorHandler err isProd path).1.error.code = "INVALID_TOKEN") ∧
    (err.name = "TokenExpiredError" →
      (errorHandler err isProd path).1.status = 401 ∧
      (errorHandler err isProd path).1.error.code = "TOKEN_EXPIRED") ∧
    (err.name ≠ "CastError" → err.name ≠ "ValidationError" → err.name ≠ "JsonWebTokenError" →
      err.name ≠ "TokenExpiredError" → err.code ≠ some 11000 →
      (errorHandler err isProd path).1.status = err.statusCode.getD 500 ∧
      (errorHandler err isProd path).1.error.code = err.errorCode.getD "SERVER_ERROR") := by
  refine ⟨by simp [errorHandler], ?_, ?_, ?_, ?_, ?_, ?_⟩
  · intro hn hc
    have hc' : (err.code == some 11000) = false := by simp [hc]
    simp [errorHandler, errorClassify, hn, hc']
  · intro hc h3 h4 h5
    have hc' : (err.code == some 11000) = true := by simp [hc]
    have h3' : (err.name == "ValidationError") = false := by simp [h3]
    have h4' : (err.name == "JsonWebTokenError") = false := by simp [h4]
    have h5' : (err.name == "TokenExpiredError") = false := by simp [h5]
    simp [errorHandler, errorClassify, hc', h3', h4', h5']
  · intro hn h4 h5
    have h4' : (err.name == "JsonWebTokenError") = false := by simp [h4]
    have h5' : (err.name == "TokenExpiredError") = false := by simp [h5]
    simp [errorHandler, errorClassify, hn, h4', h5']
  · intro hn
    simp [errorHandler, errorClassify, hn]
  · intro hn
    simp [errorHandler, errorClassify, hn]
  · intro h1 h3 h4 h5 hc
    have h1' : (err.name == "CastError") = false := by simp [h1]
    have h3' : (err.name == "ValidationError") = false := by simp [h3]
    have h4' : (err.name == "JsonWebTokenError") = false := by simp [h4]
    have h5' : (err.name == "TokenExpiredError") = false := by simp [h5]
    have hc' : (err.code == some 11000) = false := by simp [hc]
    simp [errorHandler, errorClassify, h1', h3', h4', h5', hc']

/-- Witness for C7: the rows at concrete errors — an expired-token error is
surfaced 401 TOKEN_EXPIRED; the login 401 ErrorResponse, matching no
condition, keeps status 401 with code SERVER_ERROR. -/
theorem c7_witness :
    ((errorHandler { name := "TokenExpiredError", message := "jwt expired" } true "/p").1.status = 401 ∧
     (errorHandler { name := "TokenExpiredError", message := "jwt expired" } true "/p").1.error.code =
       "TOKEN_EXPIRED") ∧
    ((errorHandler (ErrorResponse "Invalid credentials" 401) false "/p").1.status = 401 ∧
     (errorHandler (ErrorResponse "Invalid credentials" 401) false "/p").1.error.code =
       "SERVER_ERROR") :=
  ⟨(c7_error_classification { name := "TokenExpiredError", message := "jwt expired" } true
      "/p").2.2.2.2.2.1 rfl,
   (c7_error_classification (ErrorResponse "Invalid credentials" 401) false
      "/p").2.2.2.2.2.2 (by decide) (by decide) (by decide) (by decide) (by decide)⟩

/-! ## Claim C9 -/

/-- Claim C9 (counterexample): a storage-layer failure — a plain Error with
no statusCode — handled in production surfaces with the defaulted HTTP
status 500 yet keeps its original message in the body, because the guard
error.statusCode >= 500 is false when the field is undefined; so a 5xx
production response can carry the original message, contradicting the
claim. -/
def c9Err : JsError :=
  { name := "Error", message := "connection lost", stack := "Error: connection lost" }

theorem c9_counterexample :
    (errorHandler c9Err true "/api/tasks").1 =
      { status := 500, success := false,
        error := { message := "connection lost", code := "SERVER_ERROR", trace := none } } := by
  decide

/-- Claim C9 (amended): failures whose classified statusCode is an explicit
5xx get the generic Server Error message in production; production responses
never include a trace; outside production the response carries the
classified message and the stack as trace; but a failure carrying no
statusCode (and matching no classification) surfaces as HTTP 500 while
retaining its original message even in production. -/
theorem c9_production_hiding (err : JsError) (isProd : Bool) (path : String) :
    (statusGe500 (errorClassify err).2.1 = true → isProd = true →
      (errorHandler err isProd path).1.error.message = "Server Error") ∧
    (isProd = true → (errorHandler err isProd path).1.error.trace = none) ∧
    (isProd = false → (errorHandler err isProd path).1.error.message = (errorClassify err).1 ∧
      (errorHandler err isProd path).1.error.trace = some err.stack) ∧
    (err.statusCode = none → err.name ≠ "CastError" → err.name ≠ "ValidationError" →
      err.name ≠ "JsonWebTokenError" → err.name ≠ "TokenExpiredError" → err.code ≠ some 11000 →
      (errorHandler err isProd path).1.status = 500 ∧
      (errorHandler err isProd path).1.error.message = err.message) := by
  refine ⟨?_, ?_, ?_, ?_⟩
  · intro hge hp
    simp [errorHandler, hge, hp]
  · intro hp
    simp [errorHandler, hp]
  · intro hp
    subst hp
    constructor
    · by_cases hge : statusGe500 (errorClassify err).2.1 = true
      · simp [errorHandler, hge]
      · simp only [Bool.not_eq_true] at hge
        simp [errorHandler, hge]
    · simp [errorHandler]
  · intro hsc h1 h3 h4 h5 hc
    have h1' : (err.name == "CastError") = false := by simp [h1]
    have h3' : (err.name == "ValidationError") = false := by simp [h3]
    have h4' : (err.name == "JsonWebTokenError") = false := by simp [h4]
    have h5' : (err.name == "TokenExpiredError") = false := by simp [h5]
    have hc' : (err.code == some 11000) = false := by simp [hc]
    simp [errorHandler, errorClassify, statusGe500, h1', h3', h4', h5', hc', hsc]

/-- Witness for C9: an explicit 503 failure in production is masked as
Server Error without trace; outside production the same failure keeps its
message and exposes the stack. -/
def c9Err503 : JsError :=
  { name := "Error", message := "db down", statusCode := some 503, stack := "Error: db down" }

theorem c9_witness :
    (errorHandler c9Err503 true "/p").1.error.message = "Server Error" ∧
    (errorHandler c9Err503 true "/p").1.error.trace = none ∧
    (errorHandler c9Err503 false "/p").1.error.message = "db down" ∧
    (errorHandler c9Err503 false "/p").1.error.trace = some "Error: db down" := by
  have hp := c9_production_hiding c9Err503 true "/p"
  have hd := c9_production_hiding c9Err503 false "/p"
  exact ⟨hp.1 (by decide) rfl, hp.2.1 rfl, (hd.2.2.1 rfl).1, (hd.2.2.1 rfl).2⟩

/-! ## Claim C5 -/

lemma findByIdAndUpdate_refreshToken_at_id (db : List StoredUser) (uid : Nat) (h : Option String) :
    ∀ v ∈ findByIdAndUpdate db uid (fun u => { u with refreshToken := h }), v.id = uid →
      v.refreshToken = h := by
  intro v hv hid
  simp only [findByIdAndUpdate] at hv
  rcases List.mem_map.mp hv with ⟨w, hw, rfl⟩
  by_cases hc : (w.id == uid) = true
  · simp only [if_pos hc]
  · simp only [if_neg hc] at hid
    exact absurd (beq_iff_eq.mpr hid) hc

lemma sendTokenResponse_eq (env : Env) (u : StoredUser) (st : Nat) (db : List StoredUser) :
    Auth.sendTokenResponse env u st db =
      (.ok { status := st, token := jwtSign env.jwtSecret u.id (env.now + env.jwtExpireSecs),
             refreshToken := env.randHex, userId := u.id,
             userName := u.name, userEmail := u.email },
       findByIdAndUpdate db u.id
         (fun v => { v with refreshToken := some (SHA256.sha256Hex env.randHex) })) := rfl

def c5Rand : String :=
  "fedcba9876543210fedcba9876543210fedcba9876543210fedcba9876543210"

def c5User : StoredUser :=
  { id := 7, name := "Ann", email := "ann@x.com", password := bcryptHash 10 "secret1",
    refreshToken := some "oldhash" }

/-- Claim C5 (counterexample): the legacy root controller persists the
PLAINTEXT refresh token: its sendTokenResponse overwrites the stored field
with the very value returned to the client, which differs from its sha256
digest — so the repository does not always persist the digest of the
returned plaintext. -/
theorem c5_counterexample :
    Legacy.sendTokenResponse { jwtSecret := "s", randHex := c5Rand, now := 1000 } c5User 200
        [c5User] =
      (.ok { status := 200, token := jwtSign "s" 7 4600, refreshToken := c5Rand,
             userId := 7, userName := "Ann", userEmail := "ann@x.com" },
       [{ c5User with refreshToken := some c5Rand }]) ∧
    c5Rand ≠ SHA256.sha256Hex c5Rand := by
  constructor
  · rfl
  · decide

/-- Claim C5 (amended): in the CURRENT tree the claim holds — issuing a
refresh token returns the hex encoding of the fresh random draw as the
plaintext and persists only its sha256 digest on the user record, replacing
any prior stored value, and after every successful register, login and
refresh the record carrying the responding user id stores exactly the digest
of the plaintext returned to the client; the legacy root controller instead
persists the plaintext itself. -/
theorem c5_current_tree_persists_digest (env : Env) (db : List StoredUser) :
    (∀ u st, Auth.sendTokenResponse env u st db =
      (.ok { status := st, token := jwtSign env.jwtSecret u.id (env.now + env.jwtExpireSecs),
             refreshToken := env.randHex, userId := u.id,
             userName := u.name, userEmail := u.email },
       findByIdAndUpdate db u.id
         (fun v => { v with refreshToken := some (SHA256.sha256Hex env.randHex) }))) ∧
    (∀ body out db1, Auth.register env body db = (.ok out, db1) →
      out.refreshToken = env.randHex ∧
      ∀ v ∈ db1, v.id = out.userId →
        v.refreshToken = some (SHA256.sha256Hex out.refreshToken)) ∧
    (∀ body out db1, Auth.login env body db = (.ok out, db1) →
      out.refreshToken = env.randHex ∧
      ∀ v ∈ db1, v.id = out.userId →
        v.refreshToken = some (SHA256.sha256Hex out.refreshToken)) ∧
    (∀ body out db1, Auth.refreshToken env body db = (.ok out, db1) →
      out.refreshToken = env.randHex ∧
      ∀ v ∈ db1, v.id = out.userId →
        v.refreshToken = some (SHA256.sha256Hex out.refreshToken)) := by
  refine ⟨fun u st => sendTokenResponse_eq env u st db, ?_, ?_, ?_⟩
  · intro body out db1 h
    unfold Auth.register at h
    split at h
    · simp [Prod.mk.injEq] at h
    · dsimp only at h
      split at h
      · simp [Prod.mk.injEq] at h
      · split at h
        · rw [sendTokenResponse_eq] at h
          rw [Prod.mk.injEq] at h
          obtain ⟨h1, h2⟩ := h
          cases h1
          subst h2
          exact ⟨rfl, findByIdAndUpdate_refreshToken_at_id _ _ _⟩
        · simp [Prod.mk.injEq] at h
  · intro body out db1 h
    unfold Auth.login at h
    split at h
    · simp [Prod.mk.injEq] at h
    · dsimp only at h
      split at h
      · simp [Prod.mk.injEq] at h
      · split at h
        · rw [sendTokenResponse_eq] at h
          rw [Prod.mk.injEq] at h
          obtain ⟨h1, h2⟩ := h
          cases h1
          subst h2
          exact ⟨rfl, findByIdAndUpdate_refreshToken_at_id _ _ _⟩
        · simp [Prod.mk.injEq] at h
  · intro body out db1 h
    unfold Auth.refreshToken at h
    split at h
    · simp [Prod.mk.injEq] at h
    · split at h
      · simp [Prod.mk.injEq] at h
      · dsimp only at h
        split at h
        · simp [Prod.mk.injEq] at h
        · rw [sendTokenResponse_eq] at h
          rw [Prod.mk.injEq] at h
          obtain ⟨h1, h2⟩ := h
          cases h1
          subst h2
          exact ⟨rfl, findByIdAndUpdate_refreshToken_at_id _ _ _⟩

def c5WEnv : Env := { jwtSecret := "s", randHex := "r3", now := 5 }

def c5WDb : List StoredUser :=
  [{ id := 1, name := "Ann", email := "ann@x.com", password := bcryptHash 10 "secret1",
     refreshToken := some "stale" }]

def c5WOut : TokenSuccess :=
  { status := 200, token := jwtSign "s" 1 3605, refreshToken := "r3",
    userId := 1, userName := "Ann", userEmail := "ann@x.com" }

def c5WDb1 : List StoredUser :=
  [{ id := 1, name := "Ann", email := "ann@x.com", password := bcryptHash 10 "secret1",
     refreshToken := some (SHA256.sha256Hex "r3") }]

/-- Witness for C5 (amended): a concrete successful login hands the client
the plaintext r3 and leaves the stored record holding its sha256 digest,
replacing the stale prior value. -/
theorem c5_witness :
    c5WOut.refreshToken = "r3" ∧
    ∀ v ∈ c5WDb1, v.id = c5WOut.userId →
      v.refreshToken = some (SHA256.sha256Hex c5WOut.refreshToken) :=
  (c5_current_tree_persists_digest c5WEnv c5WDb).2.2.1
    { email := some "ann@x.com", password := some "secret1" } c5WOut c5WDb1 (by rfl)

/-! ## Claim C8 -/

/-- The client-visible response when protect rejects: the caught error fed
through the error middleware. -/
def protectClientView (secret : String) (now : Nat) (db : List StoredUser) (req : AuthRequest)
    (isProd : Bool) (path : String) : Option HandlerResponse :=
  match (protect secret now db req).2 with
  | .err e => some (errorHandler e isProd path).1
  | .ok _ => none

/-- Claim C8: for requests carrying a bearer credential, one with an invalid
signature and one validly signed but expired are both rejected with the same
401 ErrorResponse, and their client-visible responses (through the error
middleware) are identical, while the internal logger.error lines distinguish
the two causes. -/
theorem c8_invalid_and_expired_indistinguishable
    (secret : String) (now : Nat) (db : List StoredUser) (isProd : Bool) (path : String)
    (req1 req2 : AuthRequest) (t1 t2 : JwtToken)
    (h1 : extractToken req1 = some t1) (h2 : extractToken req2 = some t2)
    (hsig : t1.sig ≠ jwtSigOf secret t1.id t1.exp)
    (hval : t2.sig = jwtSigOf secret t2.id t2.exp) (hexp : t2.exp ≤ now) :
    (protect secret now db req1).2 =
      .err (ErrorResponse "Not authorized to access this route" 401) ∧
    (protect secret now db req2).2 =
      .err (ErrorResponse "Not authorized to access this route" 401) ∧
    protectClientView secret now db req1 isProd path =
      protectClientView secret now db req2 isProd path ∧
    (protect secret now db req1).1 = some "Auth error: invalid signature" ∧
    (protect secret now db req2).1 = some "Auth error: jwt expired" ∧
    (protect secret now db req1).1 ≠ (protect secret now db req2).1 := by
  have hv1 : jwtVerify secret now t1 = .fail "JsonWebTokenError" "invalid signature" := by
    simp [jwtVerify, hsig]
  have hv2 : jwtVerify secret now t2 = .fail "TokenExpiredError" "jwt expired" := by
    simp [jwtVerify, hval, hexp]
  have hp1 : protect secret now db req1 =
      (some "Auth error: invalid signature",
       .err (ErrorResponse "Not authorized to access this route" 401)) := by
    simp [protect, h1, hv1]
  have hp2 : protect secret now db req2 =
      (some "Auth error: jwt expired",
       .err (ErrorResponse "Not authorized to access this route" 401)) := by
    simp [protect, h2, hv2]
  refine ⟨by rw [hp1], by rw [hp2], ?_, by rw [hp1], by rw [hp2], by rw [hp1, hp2]; simp⟩
  unfold protectClientView
  rw [hp1, hp2]

def c8Req1 : AuthRequest := { cookieToken := some { id := 1, exp := 100, sig := 0 } }

def c8Req2 : AuthRequest := { headerAuthorization := some (.bearer (jwtSign "s" 1 100)) }

/-- Witness for C8: a cookie token with a forged signature and a bearer
token validly signed but expired produce distinct internal log lines yet
identical client responses. -/
theorem c8_witness :
    (protect "s" 200 [] c8Req1).1 = some "Auth error: invalid signature" ∧
    (protect "s" 200 [] c8Req2).1 = some "Auth error: jwt expired" ∧
    protectClientView "s" 200 [] c8Req1 true "/api/tasks" =
      protectClientView "s" 200 [] c8Req2 true "/api/tasks" := by
  have h := c8_invalid_and_expired_indistinguishable "s" 200 [] true "/api/tasks"
    c8Req1 c8Req2 { id := 1, exp := 100, sig := 0 } (jwtSign "s" 1 100)
    (by rfl) (by rfl) (by decide) (by rfl) (by decide)
  exact ⟨h.2.2.2.1, h.2.2.2.2.1, h.2.2.1⟩

end Todo
